import Mathlib

/-!
Shallow embedding of `instagram_comment.py` (Instagram comment automation
script).  Strings are modelled as `List Char`; the Python runtime
environment (the Chrome driver, the web pages) is modelled by explicit
oracles: a `start` function giving the outcome of each `webdriver.Chrome`
invocation, per-stage exception outcomes, and a per-iteration /
per-selector outcome function for the content locator.  Machine-level
concerns (actual processes, real timeouts) are outside the embedding; the
control flow, classification conditions, message strings and exit codes
are translated line by line from the source.
-/

namespace Perfmon

/-- Python `str.strip()` on a `List Char` string: drop leading and trailing
whitespace (modelled with `Char.isWhitespace`). -/
def trimL (s : List Char) : List Char :=
  (s.dropWhile Char.isWhitespace).rdropWhile Char.isWhitespace

/-- Python `str.lower()` (the script only lowercases ASCII tokens). -/
def lowerL (s : List Char) : List Char := s.map Char.toLower

/-- The single-quote character (written via its code point). -/
def squote : Char := Char.ofNat 39

/-- `ENV_USERNAME_KEY = "INSTAGRAM_USERNAME"` from the source. -/
def ENV_USERNAME_KEY : List Char := "INSTAGRAM_USERNAME".data

/-- `ENV_PASSWORD_KEY = "INSTAGRAM_PASSWORD"` from the source. -/
def ENV_PASSWORD_KEY : List Char := "INSTAGRAM_PASSWORD".data

/-- `ENV_COMMENT_KEY = "INSTAGRAM_COMMENT"` from the source. -/
def ENV_COMMENT_KEY : List Char := "INSTAGRAM_COMMENT".data

/-- `ENV_PROFILE_KEY = "INSTAGRAM_PROFILE_URL"` from the source. -/
def ENV_PROFILE_KEY : List Char := "INSTAGRAM_PROFILE_URL".data

/-- `ENV_CHROME_PROFILE_DIR = "CHROME_USER_DATA_DIR"` from the source. -/
def ENV_CHROME_PROFILE_DIR : List Char := "CHROME_USER_DATA_DIR".data

/-- `ENV_CHROME_HEADLESS = "CHROME_HEADLESS"` from the source. -/
def ENV_CHROME_HEADLESS : List Char := "CHROME_HEADLESS".data

/-- The value-processing part of a `load_env` line (source lines 73-77):
strip whitespace, then strip one pair of surrounding double quotes, else
one pair of surrounding single quotes (Python `startswith`/`endswith`
followed by `value[1:-1]`). -/
def parseValueL (v : List Char) : List Char :=
  if (trimL v).head? = some '"' ∧ (trimL v).getLast? = some '"' then
    ((trimL v).drop 1).dropLast
  else if (trimL v).head? = some squote ∧ (trimL v).getLast? = some squote then
    ((trimL v).drop 1).dropLast
  else trimL v

/-- Python `line.split("=", 1)`: the part before the first `=` and the part
after it. -/
def splitFirstEq (line : List Char) : List Char × List Char :=
  (line.takeWhile (fun c => c != '='), (line.dropWhile (fun c => c != '=')).drop 1)

/-- Python `values[key] = value` on an insertion-ordered dict modelled as an
association list: overwrite in place if the key exists, else append. -/
def dictInsert (values : List (List Char × List Char)) (k v : List Char) :
    List (List Char × List Char) :=
  if values.any (fun p => p.1 == k) then
    values.map (fun p => if p.1 == k then (k, v) else p)
  else values ++ [(k, v)]

/-- One iteration of the `load_env` parsing loop (source lines 66-78):
skip blank lines, comment lines and lines without `=`; otherwise split at
the first `=`, strip the key, process the value, and store the pair. -/
def parseLine (values : List (List Char × List Char)) (raw : List Char) :
    List (List Char × List Char) :=
  let line := trimL raw
  if line = [] then values
  else if line.head? = some '#' then values
  else if !(line.contains '=') then values
  else
    let kv := splitFirstEq line
    dictInsert values (trimL kv.1) (parseValueL kv.2)

/-- `load_env` (source lines 39-79) on a file already split into its lines:
fold the per-line parser over the lines starting from the empty dict. -/
def load_env (lines : List (List Char)) : List (List Char × List Char) :=
  lines.foldl parseLine []

/-- `get_required` (source lines 82-92): a missing key raises
`EnvConfigError("Missing required environment variable: {key}")`, an empty
value raises `EnvConfigError("Environment variable {key} is empty")`,
modelled with `Except`. -/
def get_required (values : List (List Char × List Char)) (key : List Char) :
    Except (List Char) (List Char) :=
  match List.lookup key values with
  | none => Except.error ("Missing required environment variable: ".data ++ key)
  | some v =>
    if v = [] then Except.error ("Environment variable ".data ++ key ++ " is empty".data)
    else Except.ok v

/-- `get_optional` (source lines 95-104): `None` when missing or when the
stripped value is empty, otherwise the stripped value. -/
def get_optional (values : List (List Char × List Char)) (key : List Char) :
    Option (List Char) :=
  match List.lookup key values with
  | none => none
  | some v => if trimL v = [] then none else some (trimL v)

/-- The truthy token set of `str_to_bool` (source line 113). -/
def trueTokens : List (List Char) := ["1".data, "true".data, "yes".data, "on".data]

/-- The falsy token set of `str_to_bool` (source line 115). -/
def falseTokens : List (List Char) := ["0".data, "false".data, "no".data, "off".data]

/-- `str_to_bool` (source lines 107-117): `None` and unrecognized tokens map
to the default; recognized tokens are matched after strip + lowercase. -/
def str_to_bool (value : Option (List Char)) (default : Bool) : Bool :=
  match value with
  | none => default
  | some v =>
    if trueTokens.contains (lowerL (trimL v)) then true
    else if falseTokens.contains (lowerL (trimL v)) then false
    else default

/-- Outcome of one `webdriver.Chrome(options=...)` invocation: either a live
driver, or a `SessionNotCreatedException` whose `.msg` field may be `None`
(the source reads `exc.msg or ""`).  Other exception types never occur on
this call path in the source's handler, so they are not modelled. -/
inductive StartOutcome where
  | ok : StartOutcome
  | sessionNotCreated : Option (List Char) → StartOutcome
deriving DecidableEq

/-- One element of the `attempts` list in `build_driver` (source lines
150-170): visibility mode, optional profile directory, optional warning. -/
structure Attempt where
  headless : Bool
  profileDir : Option (List Char)
  message : Option (List Char)
deriving DecidableEq

/-- Warning attached to the visible-mode fallback attempt (source line 159). -/
def headlessFallbackWarning : List Char :=
  "Chrome failed to start headless; retrying with a visible browser window.".data

/-- Warning attached to the no-profile fallback attempt (source line 168). -/
def profileFallbackWarning : List Char :=
  "Chrome failed to start with the persistent profile; retrying without it.".data

/-- The ordered attempt list of `build_driver` (source lines 150-170):
the preferred configuration, then (if headless was preferred) a visible
retry with the same profile, then (if a profile was given) a visible retry
without the profile. -/
def attemptsList (headless : Bool) (user_data_dir : Option (List Char)) : List Attempt :=
  [⟨headless, user_data_dir, none⟩]
    ++ (if headless then [⟨false, user_data_dir, some headlessFallbackWarning⟩] else [])
    ++ (if user_data_dir.isSome then [⟨false, none, some profileFallbackWarning⟩] else [])

/-- Python's substring test `pat in s`: some tail of `s` starts with `pat`
(the empty pattern is contained in every string, as in Python). -/
def containsSub (pat s : List Char) : Bool :=
  s.tails.any (fun t => pat.isPrefixOf t)

/-- The transient-startup classification implicit in source line 182: a
startup failure is recoverable when its message contains the
debugging-port-conflict substring or the crash substring. -/
def recoverableStartup (msg : List Char) : Bool :=
  containsSub "DevToolsActivePort".data msg || containsSub "crashed".data msg

/-- How `build_driver` terminates: a driver created on the given attempt
index, a re-raised unrecognized `SessionNotCreatedException`, the last
observed error re-raised after all attempts failed recoverably, or the
unreachable `RuntimeError` for an empty attempt list. -/
inductive BuildResult where
  | success : Nat → BuildResult
  | fatal : Option (List Char) → BuildResult
  | exhausted : Option (List Char) → BuildResult
  | unknownFailure : BuildResult
deriving DecidableEq

/-- Result of `build_driver`: how it terminated, the warnings printed to
stderr, and how many `webdriver.Chrome` invocations were made. -/
structure BuildOutcome where
  result : BuildResult
  stderrMsgs : List (List Char)
  calls : Nat
deriving DecidableEq

/-- The warning printed when an attempt fails recoverably (source lines
184-185): the attempt's own message, if any. -/
def warnOf (a : Attempt) : List (List Char) :=
  match a.message with
  | some w => [w]
  | none => []

/-- The attempt loop of `build_driver` (source lines 172-188).  `idx` counts
`webdriver.Chrome` calls made so far; `lastError` holds the message of the
last `SessionNotCreatedException`; `msgs` accumulates printed warnings.  On
a failure whose message contains neither recognized substring the exception
is re-raised at once; otherwise the attempt's warning (if any) is printed
and the next attempt runs.  An exhausted list re-raises the last error. -/
def runAttempts (start : Nat → StartOutcome) :
    List Attempt → Nat → Option (Option (List Char)) → List (List Char) → BuildOutcome
  | [], idx, lastError, msgs =>
    match lastError with
    | some m => ⟨BuildResult.exhausted m, msgs, idx⟩
    | none => ⟨BuildResult.unknownFailure, msgs, idx⟩
  | attempt :: rest, idx, _, msgs =>
    match start idx with
    | StartOutcome.ok => ⟨BuildResult.success idx, msgs, idx + 1⟩
    | StartOutcome.sessionNotCreated m =>
      if !(containsSub "DevToolsActivePort".data (m.getD []))
          && !(containsSub "crashed".data (m.getD [])) then
        ⟨BuildResult.fatal m, msgs, idx + 1⟩
      else
        runAttempts start rest (idx + 1) (some m) (msgs ++ warnOf attempt)

/-- `build_driver` (source lines 136-188), parameterized by the start
oracle giving the outcome of the n-th `webdriver.Chrome` invocation. -/
def build_driver (start : Nat → StartOutcome) (user_data_dir : Option (List Char))
    (headless : Bool) : BuildOutcome :=
  runAttempts start (attemptsList headless user_data_dir) 0 none []

/-- The three CSS selector strategies of `navigate_to_first_post` (source
lines 237-241), most to least specific. -/
def post_selectors : List (List Char) :=
  ["article a[href*=".data ++ [squote] ++ "/p/".data ++ [squote] ++ "]".data,
   "main section a[href*=".data ++ [squote] ++ "/p/".data ++ [squote] ++ "]".data,
   "main div[role=".data ++ [squote] ++ "presentation".data ++ [squote]
     ++ "] a[href*=".data ++ [squote] ++ "/p/".data ++ [squote] ++ "]".data]

/-- Outcome of trying one selector on one iteration of the content-locator
loop: no matching links; matching links whose first candidate's click wait
or click raised one of the caught exceptions (`StaleElementReferenceException`,
`TimeoutException`, `WebDriverException`), which the source `continue`s
past; or a successful click. -/
inductive SelectorOutcome where
  | noMatches
  | clickFail
  | clickOk
deriving DecidableEq

/-- The inner selector loop of one iteration (source lines 244-262): the
first selector whose candidate click succeeds wins; empty matches and
caught click failures both advance to the next selector. -/
def scanSels (o : Nat → SelectorOutcome) : List Nat → Option Nat
  | [] => none
  | s :: rest =>
    match o s with
    | SelectorOutcome.clickOk => some s
    | _ => scanSels o rest

/-- Indices of the selector strategies, in source order. -/
def selIdxList : List Nat := List.range post_selectors.length

/-- The `for _ in range(10)` polling loop (source lines 243-264): `i` is the
current iteration index, the second argument the remaining iterations; an
iteration with no successful click scrolls and retries. -/
def navLoop (env : Nat → Nat → SelectorOutcome) : Nat → Nat → Option (Nat × Nat)
  | _, 0 => none
  | i, n + 1 =>
    match scanSels (env i) selIdxList with
    | some s => some (i, s)
    | none => navLoop env (i + 1) n

/-- How `navigate_to_first_post` terminates: a successful click at
(iteration, selector); the explicit `RuntimeError` with its message after
the bound is exhausted; or a `TimeoutException` propagating from the
initial wait for the `main` content region. -/
inductive NavResult where
  | clicked : Nat → Nat → NavResult
  | raised : List Char → NavResult
  | mainTimeout : NavResult
deriving DecidableEq

/-- Message of the `RuntimeError` raised at source line 266. -/
def noContentMsg : List Char := "Could not locate any posts on the profile page".data

/-- `navigate_to_first_post` (source lines 228-266), with the outcome of
the initial bounded wait for the main content region as a flag and the
per-iteration, per-selector outcomes as an oracle. -/
def navigate_to_first_post (mainRegionVisible : Bool)
    (env : Nat → Nat → SelectorOutcome) : NavResult :=
  if mainRegionVisible then
    match navLoop env 0 10 with
    | some p => NavResult.clicked p.1 p.2
    | none => NavResult.raised noContentMsg
  else NavResult.mainTimeout

/-- An exception escaping one of the post-bootstrap stages (`login`,
`navigate_to_first_post`, `leave_comment`): a `TimeoutException` or any
other exception, each carrying its rendered message. -/
inductive StageExc where
  | timeout : List Char → StageExc
  | other : List Char → StageExc
deriving DecidableEq

/-- The runtime environment `main` runs against: the start oracle for
`build_driver` and the outcome of each stage (`none` = the stage returned
normally). -/
structure World where
  start : Nat → StartOutcome
  loginResult : Option StageExc
  navResult : Option StageExc
  commentResult : Option StageExc

/-- The first exception escaping the `try` block of `main` (source lines
314-317): stages run in order and the first raising stage aborts the rest. -/
def firstStageExc (w : World) : Option StageExc :=
  match w.loginResult with
  | some e => some e
  | none =>
    match w.navResult with
    | some e => some e
    | none => w.commentResult

/-- The validated configuration `main` assembles before bootstrapping
(source lines 294-308). -/
structure Config where
  username : List Char
  password : List Char
  comment : List Char
  profile_url : List Char
  headless : Bool
  user_data_dir : Option (List Char)
deriving DecidableEq

/-- The profile-disabling sentinel values of `main` (source lines 300-304). -/
def sentinelValues : List (List Char) := ["none".data, "disable".data, "disabled".data]

/-- Python `profile_dir_value or ".selenium-profile"`: the default kicks in
for `None` and for the empty string. -/
def pyOrDefault (o : Option (List Char)) (d : List Char) : List Char :=
  match o with
  | some s => if s = [] then d else s
  | none => d

/-- The condition `profile_dir_value and profile_dir_value.strip().lower()
in {"none", "disable", "disabled"}` (source lines 300-304): a truthy value
whose stripped lowercase form is a sentinel. -/
def disableSentinel (pdv : Option (List Char)) : Bool :=
  match pdv with
  | some s => !s.isEmpty && sentinelValues.contains (lowerL (trimL s))
  | none => false

/-- The profile-directory choice of `main` (source lines 299-308): `None`
on a sentinel, otherwise the given (or default) directory passed through
`Path(...).expanduser()`, modelled by the abstract `expand` function. -/
def chooseProfileDir (expand : List Char → List Char) (pdv : Option (List Char)) :
    Option (List Char) :=
  if disableSentinel pdv then none
  else some (expand (pyOrDefault pdv ".selenium-profile".data))

/-- The profile directory `main` derives from the parsed configuration. -/
def profileFromValues (expand : List Char → List Char)
    (values : List (List Char × List Char)) : Option (List Char) :=
  chooseProfileDir expand (get_optional values ENV_CHROME_PROFILE_DIR)

/-- The headless flag `main` derives from the parsed configuration (source
line 298): `str_to_bool` with default `True`. -/
def headlessFromValues (values : List (List Char × List Char)) : Bool :=
  str_to_bool (get_optional values ENV_CHROME_HEADLESS) true

/-- The configuration phase of `main` (source lines 294-308): the four
`get_required` lookups in source order, short-circuiting on the first
`EnvConfigError`, then the optional headless and profile settings. -/
def configPhase (expand : List Char → List Char)
    (values : List (List Char × List Char)) : Except (List Char) Config :=
  match get_required values ENV_USERNAME_KEY with
  | Except.error e => Except.error e
  | Except.ok username =>
    match get_required values ENV_PASSWORD_KEY with
    | Except.error e => Except.error e
    | Except.ok password =>
      match get_required values ENV_COMMENT_KEY with
      | Except.error e => Except.error e
      | Except.ok comment =>
        match get_required values ENV_PROFILE_KEY with
        | Except.error e => Except.error e
        | Except.ok profile_url =>
          Except.ok { username, password, comment, profile_url,
                      headless := headlessFromValues values,
                      user_data_dir := profileFromValues expand values }

/-- How the `main` process run ends: a returned exit code, or an exception
escaping `main` entirely (which happens exactly when `build_driver` raises,
since that call sits outside both `try` blocks). -/
inductive MainOutcome where
  | exit : Nat → MainOutcome
  | uncaught : BuildResult → MainOutcome
deriving DecidableEq

/-- Observable result of a `main` run: outcome, stderr and stdout lines,
whether `build_driver` was invoked, whether a driver was created, whether
`driver.quit()` ran, and whether `mkdir(parents=True, exist_ok=True)` was
called on a profile directory. -/
structure MainResult where
  outcome : MainOutcome
  stderr : List (List Char)
  stdout : List (List Char)
  buildInvoked : Bool
  driverCreated : Bool
  driverQuit : Bool
  mkdirCalled : Bool
deriving DecidableEq

/-- The `try/except/finally` automation block of `main` (source lines
314-328) after a driver was created: a `TimeoutException` yields exit code
2, any other exception exit code 3, success exit code 0 with the stdout
confirmation; `driver.quit()` runs on every one of these paths. -/
def stageRun (w : World) (preErr : List (List Char)) (mk : Bool) : MainResult :=
  match firstStageExc w with
  | some (StageExc.timeout m) =>
    ⟨MainOutcome.exit 2, preErr ++ ["Automation timed out: ".data ++ m], [],
     true, true, true, mk⟩
  | some (StageExc.other m) =>
    ⟨MainOutcome.exit 3, preErr ++ ["Unexpected error: ".data ++ m], [],
     true, true, true, mk⟩
  | none =>
    ⟨MainOutcome.exit 0, preErr, ["Comment posted successfully!".data],
     true, true, true, mk⟩

/-- `main` (source lines 285-328).  `envPath` is the resolved configuration
path (first CLI argument or `.env`), `file` its content as a line list
(`none` = the file does not exist).  A missing file or failing
`get_required` prints `Error: ...` and returns 1 before any bootstrap.
`build_driver` is then called outside the `try` block, so its exceptions
escape `main`; on success the staged block runs with code 2/3/0 and an
unconditional `driver.quit()`. -/
def mainModel (expand : List Char → List Char) (envPath : List Char)
    (file : Option (List (List Char))) (w : World) : MainResult :=
  match file with
  | none =>
    ⟨MainOutcome.exit 1, ["Error: Environment file not found: ".data ++ envPath], [],
     false, false, false, false⟩
  | some lines =>
    match configPhase expand (load_env lines) with
    | Except.error e =>
      ⟨MainOutcome.exit 1, ["Error: ".data ++ e], [], false, false, false, false⟩
    | Except.ok cfg =>
      match (build_driver w.start cfg.user_data_dir cfg.headless).result with
      | BuildResult.success _ =>
        stageRun w (build_driver w.start cfg.user_data_dir cfg.headless).stderrMsgs
          cfg.user_data_dir.isSome
      | r =>
        ⟨MainOutcome.uncaught r,
         (build_driver w.start cfg.user_data_dir cfg.headless).stderrMsgs, [],
         true, false, false, cfg.user_data_dir.isSome⟩

/-- The two ways `get_required` can fail on a key. -/
inductive ConfigFailure where
  | missingKey : List Char → ConfigFailure
  | emptyValue : List Char → ConfigFailure
deriving DecidableEq

/-- The `EnvConfigError` message for a failure (source lines 88 and 91). -/
def failureMsg : ConfigFailure → List Char
  | ConfigFailure.missingKey k => "Missing required environment variable: ".data ++ k
  | ConfigFailure.emptyValue k => "Environment variable ".data ++ k ++ " is empty".data

/-- Whether `get_required` would fail on `key`, and how. -/
def keyStatus (values : List (List Char × List Char)) (key : List Char) :
    Option ConfigFailure :=
  match List.lookup key values with
  | none => some (ConfigFailure.missingKey key)
  | some v => if v = [] then some (ConfigFailure.emptyValue key) else none

/-- The required keys, in the order `main` checks them (source lines 294-297). -/
def requiredKeys : List (List Char) :=
  [ENV_USERNAME_KEY, ENV_PASSWORD_KEY, ENV_COMMENT_KEY, ENV_PROFILE_KEY]

/-- The first failing required key check in `main`'s order, if any. -/
def firstRequiredFailure (values : List (List Char × List Char)) : Option ConfigFailure :=
  match keyStatus values ENV_USERNAME_KEY with
  | some f => some f
  | none =>
    match keyStatus values ENV_PASSWORD_KEY with
    | some f => some f
    | none =>
      match keyStatus values ENV_COMMENT_KEY with
      | some f => some f
      | none => keyStatus values ENV_PROFILE_KEY

/-- Formalization of the spec phrase "value wrapped in matching quotes"
(quote character `q`): the string has the quote at both ends with at least
the two quote characters present.  Written from the spec's words, to be
compared with the behaviour of `parseValueL`. -/
def specWrapped (q : Char) (t : List Char) : Prop :=
  2 ≤ t.length ∧ t.head? = some q ∧ t.getLast? = some q

/-- A complete configuration file, for concrete instantiations. -/
def exLines : List (List Char) :=
  ["INSTAGRAM_USERNAME=u".data, "INSTAGRAM_PASSWORD=p".data,
   "INSTAGRAM_COMMENT=hi".data, "INSTAGRAM_PROFILE_URL=x".data]

/-- The configuration `main` assembles from `exLines` (with `expand = id`). -/
def cfgEx : Config :=
  ⟨"u".data, "p".data, "hi".data, "x".data, true, some ".selenium-profile".data⟩

/-- A configuration file missing `INSTAGRAM_COMMENT`. -/
def linesNoComment : List (List Char) :=
  ["INSTAGRAM_USERNAME=u".data, "INSTAGRAM_PASSWORD=p".data,
   "INSTAGRAM_PROFILE_URL=x".data]

/-- A start oracle whose every invocation creates a driver. -/
def okStart : Nat → StartOutcome := fun _ => StartOutcome.ok

/-- A start oracle that always fails with an unrecognized message. -/
def boomStart : Nat → StartOutcome :=
  fun _ => StartOutcome.sessionNotCreated (some "boom".data)

/-- A start oracle that always fails with the crash symptom. -/
def crashStart : Nat → StartOutcome :=
  fun _ => StartOutcome.sessionNotCreated (some "crashed".data)

/-- A world in which every stage succeeds. -/
def wOk : World := ⟨okStart, none, none, none⟩

/-- A world in which the login landmark wait times out. -/
def wTimeout : World := ⟨okStart, some (StageExc.timeout "t".data), none, none⟩

/-- A world in which login raises a non-timeout exception. -/
def wOther : World := ⟨okStart, some (StageExc.other "E".data), none, none⟩

/-- A world whose driver bootstrap always fails with an unrecognized
symptom. -/
def wBoom : World := ⟨boomStart, none, none, none⟩

/-- A selector oracle that never finds a match. -/
def allNoMatches : Nat → Nat → SelectorOutcome := fun _ _ => SelectorOutcome.noMatches

/-- Stripping whitespace is idempotent: `trimL` of an already trimmed
string is itself. -/
theorem trimL_idem (s : List Char) : trimL (trimL s) = trimL s := by
  unfold trimL
  have key : List.dropWhile Char.isWhitespace
      ((s.dropWhile Char.isWhitespace).rdropWhile Char.isWhitespace)
      = (s.dropWhile Char.isWhitespace).rdropWhile Char.isWhitespace := by
    rw [List.dropWhile_eq_self_iff]
    intro hl
    have hpre : (s.dropWhile Char.isWhitespace).rdropWhile Char.isWhitespace
        <+: s.dropWhile Char.isWhitespace := List.rdropWhile_prefix _ _
    have hl2 : 0 < (s.dropWhile Char.isWhitespace).length :=
      lt_of_lt_of_le hl hpre.length_le
    have hz := List.dropWhile_get_zero_not Char.isWhitespace s hl2
    have hg : ((s.dropWhile Char.isWhitespace).rdropWhile Char.isWhitespace).get ⟨0, hl⟩
        = (s.dropWhile Char.isWhitespace).get ⟨0, hl2⟩ := by
      simp only [List.get_eq_getElem]
      exact hpre.getElem hl
    rw [hg]
    exact hz
  rw [key, List.rdropWhile_idempotent]

/-- The spec-side wrapping predicate holds exactly when the string splits
as a quote, an inner string, and a closing quote. -/
theorem specWrapped_iff (q : Char) (t : List Char) :
    specWrapped q t ↔ ∃ inner, t = q :: (inner ++ [q]) := by
  constructor
  · rintro ⟨hlen, hhead, hlast⟩
    cases t with
    | nil => simp at hhead
    | cons a rest =>
      have ha : a = q := by simpa using hhead
      cases rest with
      | nil => simp at hlen
      | cons b rest2 =>
        have hne : (b :: rest2 : List Char) ≠ [] := by simp
        refine ⟨(b :: rest2).dropLast, ?_⟩
        have hsplit := List.dropLast_append_getLast hne
        have hq : (b :: rest2).getLast hne = q := by
          rw [List.getLast?_cons_cons] at hlast
          rw [List.getLast?_eq_getLast _ hne] at hlast
          exact Option.some.inj hlast
        rw [hq] at hsplit
        rw [ha]
        exact congrArg (q :: ·) hsplit.symm
  · rintro ⟨inner, rfl⟩
    refine ⟨by simp, by simp, ?_⟩
    have : q :: (inner ++ [q]) = (q :: inner) ++ [q] := by simp
    rw [this, List.getLast?_concat]

/-- C7 counterexample: the value consisting of a single double-quote
character is not wrapped in matching quotes (under either quote character),
and it is its own whitespace-stripped form, yet `parseValueL` does not pass
it through unchanged: Python's `startswith`/`endswith` pair both succeed on
the one quote character and `value[1:-1]` strips it to the empty string. -/
theorem parse_value_single_quote_cex :
    parseValueL ['"'] = [] ∧ ¬ specWrapped '"' ['"'] ∧ ¬ specWrapped squote ['"'] ∧
      trimL ['"'] = ['"'] ∧ ([] : List Char) ≠ ['"'] := by
  refine ⟨by decide, ?_, ?_, by decide, by decide⟩
  · rintro ⟨h, _, _⟩; simp at h
  · rintro ⟨h, _, _⟩; simp at h

/-- C7 (amended): a configuration value whose stripped form is wrapped in
matching double quotes (or matching single quotes) parses to the content
strictly between the quotes, and a stripped value not wrapped in either
quote is passed through unchanged — except for the two one-character
values consisting of a single quote, which are stripped to empty. -/
theorem parse_value_quote_stripping (v inner : List Char) :
    (trimL v = '"' :: (inner ++ ['"']) → parseValueL v = inner) ∧
    (trimL v = squote :: (inner ++ [squote]) → parseValueL v = inner) ∧
    (¬ specWrapped '"' (trimL v) → ¬ specWrapped squote (trimL v) →
      trimL v ≠ ['"'] → trimL v ≠ [squote] → parseValueL v = trimL v) ∧
    parseValueL ['"'] = [] ∧ parseValueL [squote] = [] := by
  refine ⟨?_, ?_, ?_, by decide, by decide⟩
  · intro h
    have h1 : (trimL v).head? = some '"' := by rw [h]; rfl
    have h2 : (trimL v).getLast? = some '"' := by
      rw [h]
      have : ('"' :: (inner ++ ['"']) : List Char) = ('"' :: inner) ++ ['"'] := by simp
      rw [this, List.getLast?_concat]
    unfold parseValueL
    rw [if_pos ⟨h1, h2⟩, h]
    simp [List.dropLast_concat]
  · intro h
    have h1 : (trimL v).head? = some squote := by rw [h]; rfl
    have hns : ¬((trimL v).head? = some '"' ∧ (trimL v).getLast? = some '"') := by
      rintro ⟨hh, _⟩
      rw [h1] at hh
      exact absurd (Option.some.inj hh) (by decide)
    have h2 : (trimL v).getLast? = some squote := by
      rw [h]
      have : (squote :: (inner ++ [squote]) : List Char) = (squote :: inner) ++ [squote] := by
        simp
      rw [this, List.getLast?_concat]
    unfold parseValueL
    rw [if_neg hns, if_pos ⟨h1, h2⟩, h]
    simp [List.dropLast_concat]
  · intro hw1 hw2 hs1 hs2
    have hc : ∀ q : Char, trimL v ≠ [q] → ¬ specWrapped q (trimL v) →
        ¬((trimL v).head? = some q ∧ (trimL v).getLast? = some q) := by
      intro q hsq hwq
      rintro ⟨h1, h2⟩
      cases ht : trimL v with
      | nil => rw [ht] at h1; simp at h1
      | cons a rest =>
        rw [ht] at h1 h2
        cases rest with
        | nil =>
          have ha : a = q := by simpa using h1
          exact hsq (by rw [ht, ha])
        | cons b rest2 =>
          exact hwq (by rw [ht]; exact ⟨by simp, h1, h2⟩)
    unfold parseValueL
    rw [if_neg (hc '"' hs1 hw1), if_neg (hc squote hs2 hw2)]

/-- C7 witness: a concrete double-quoted value parses to its inner
content. -/
theorem parse_value_quote_stripping_witness :
    parseValueL ('"' :: ("abc".data ++ ['"'])) = "abc".data :=
  (parse_value_quote_stripping ('"' :: ("abc".data ++ ['"'])) "abc".data).1 (by decide)

/-- C8: `load_env` is a pure function of the file content — parsing the
same content twice yields identical mappings. -/
theorem load_env_deterministic (lines1 lines2 : List (List Char))
    (h : lines1 = lines2) : load_env lines1 = load_env lines2 := by rw [h]

/-- C8 witness: two parses of a concrete one-line file agree. -/
theorem load_env_deterministic_witness :
    load_env ["A=1".data] = load_env ["A=1".data] :=
  load_env_deterministic ["A=1".data] ["A=1".data] rfl

/-- C10: a toggle string recognized by neither token set makes
`str_to_bool` return the default, and since `main` reads `CHROME_HEADLESS`
with default `True`, an unrecognized toggle value selects headless mode. -/
theorem str_to_bool_unrecognized_default (values : List (List Char × List Char))
    (s : List Char) (d : Bool)
    (h1 : trueTokens.contains (lowerL (trimL s)) = false)
    (h2 : falseTokens.contains (lowerL (trimL s)) = false) :
    str_to_bool (some s) d = d ∧
    (List.lookup ENV_CHROME_HEADLESS values = some s →
      headlessFromValues values = true) := by
  have m1 : lowerL (trimL s) ∉ trueTokens := by simpa using h1
  have m2 : lowerL (trimL s) ∉ falseTokens := by simpa using h2
  constructor
  · simp [str_to_bool, m1, m2]
  · intro hl
    unfold headlessFromValues get_optional
    rw [hl]
    by_cases he : trimL s = []
    · simp [he, str_to_bool]
    · have m1' : lowerL (trimL (trimL s)) ∉ trueTokens := by rw [trimL_idem]; exact m1
      have m2' : lowerL (trimL (trimL s)) ∉ falseTokens := by rw [trimL_idem]; exact m2
      simp [he, str_to_bool, m1', m2']

/-- C10 witness: the unrecognized token `maybe` yields the default, and
headless mode for `main`. -/
theorem str_to_bool_unrecognized_default_witness :
    str_to_bool (some "maybe".data) false = false ∧
      headlessFromValues [(ENV_CHROME_HEADLESS, "maybe".data)] = true := by
  have h := str_to_bool_unrecognized_default [(ENV_CHROME_HEADLESS, "maybe".data)]
    "maybe".data false (by decide) (by decide)
  exact ⟨h.1, h.2 (by decide)⟩

/-- Boolean bridge: a disjunction being true falsifies the source's
re-raise condition (conjunction of the two negated substring tests). -/
theorem not_and_not_eq_false_of_or (a b : Bool) (h : (a || b) = true) :
    (!a && !b) = false := by
  cases a <;> cases b <;> simp_all

/-- One-step unfolding: an exhausted attempt list raises the last error. -/
theorem runAttempts_nil_last (start : Nat → StartOutcome) (idx : Nat)
    (m : Option (List Char)) (ms : List (List Char)) :
    runAttempts start [] idx (some m) ms = ⟨BuildResult.exhausted m, ms, idx⟩ := rfl

/-- One-step unfolding: a successful start returns the driver at once. -/
theorem runAttempts_cons_ok (start : Nat → StartOutcome) (a : Attempt)
    (rest : List Attempt) (idx : Nat) (le : Option (Option (List Char)))
    (ms : List (List Char)) (h : start idx = StartOutcome.ok) :
    runAttempts start (a :: rest) idx le ms = ⟨BuildResult.success idx, ms, idx + 1⟩ := by
  simp only [runAttempts, h]

/-- One-step unfolding: an unrecognized start failure is re-raised at once. -/
theorem runAttempts_cons_fatal (start : Nat → StartOutcome) (a : Attempt)
    (rest : List Attempt) (idx : Nat) (le : Option (Option (List Char)))
    (ms : List (List Char)) (m : Option (List Char))
    (h : start idx = StartOutcome.sessionNotCreated m)
    (hc : (!(containsSub "DevToolsActivePort".data (m.getD []))
        && !(containsSub "crashed".data (m.getD []))) = true) :
    runAttempts start (a :: rest) idx le ms = ⟨BuildResult.fatal m, ms, idx + 1⟩ := by
  simp only [runAttempts, h]
  rw [if_pos hc]

/-- One-step unfolding: a recoverable start failure prints the attempt's
warning and recurses on the remaining attempts. -/
theorem runAttempts_cons_recover (start : Nat → StartOutcome) (a : Attempt)
    (rest : List Attempt) (idx : Nat) (le : Option (Option (List Char)))
    (ms : List (List Char)) (m : Option (List Char))
    (h : start idx = StartOutcome.sessionNotCreated m)
    (hc : (!(containsSub "DevToolsActivePort".data (m.getD []))
        && !(containsSub "crashed".data (m.getD []))) = false) :
    runAttempts start (a :: rest) idx le ms
      = runAttempts start rest (idx + 1) (some m) (ms ++ warnOf a) := by
  simp only [runAttempts, h]
  rw [if_neg (by simp [hc])]

/-- The attempt loop never reports fewer `webdriver.Chrome` calls than it
started from. -/
theorem runAttempts_calls_lb (start : Nat → StartOutcome) :
    ∀ (l : List Attempt) (idx : Nat) (le : Option (Option (List Char)))
      (ms : List (List Char)), idx ≤ (runAttempts start l idx le ms).calls := by
  intro l
  induction l with
  | nil => intro idx le ms; cases le <;> simp [runAttempts]
  | cons a rest ih =>
    intro idx le ms
    cases h : start idx with
    | ok =>
      rw [runAttempts_cons_ok start a rest idx le ms h]
      exact Nat.le_succ idx
    | sessionNotCreated m =>
      cases hc : (!(containsSub "DevToolsActivePort".data (m.getD []))
          && !(containsSub "crashed".data (m.getD []))) with
      | true =>
        rw [runAttempts_cons_fatal start a rest idx le ms m h hc]
        exact Nat.le_succ idx
      | false =>
        rw [runAttempts_cons_recover start a rest idx le ms m h hc]
        exact le_trans (Nat.le_succ idx) (ih (idx + 1) (some m) (ms ++ warnOf a))

/-- A nonempty attempt list performs at least one `webdriver.Chrome`
call beyond the starting index. -/
theorem runAttempts_calls_cons (start : Nat → StartOutcome) (a : Attempt)
    (rest : List Attempt) (idx : Nat) (le : Option (Option (List Char)))
    (ms : List (List Char)) :
    idx + 1 ≤ (runAttempts start (a :: rest) idx le ms).calls := by
  cases h : start idx with
  | ok =>
    rw [runAttempts_cons_ok start a rest idx le ms h]
  | sessionNotCreated m =>
    cases hc : (!(containsSub "DevToolsActivePort".data (m.getD []))
        && !(containsSub "crashed".data (m.getD []))) with
    | true =>
      rw [runAttempts_cons_fatal start a rest idx le ms m h hc]
    | false =>
      rw [runAttempts_cons_recover start a rest idx le ms m h hc]
      exact runAttempts_calls_lb start rest (idx + 1) (some m) (ms ++ warnOf a)

/-- The attempt list for a headless-preferred bootstrap: preferred headless
first, then the visible-mode fallback, then the profile tail. -/
theorem attemptsList_true (d : Option (List Char)) :
    attemptsList true d = ⟨true, d, none⟩ :: ⟨false, d, some headlessFallbackWarning⟩ ::
      (if d.isSome then [⟨false, none, some profileFallbackWarning⟩] else []) := by
  cases d <;> rfl

/-- C1: with headless preferred, a start failure carrying the
debugging-port-conflict symptom leads to at least a second start attempt,
whose configuration is the visible-mode fallback; a start failure whose
message contains neither recognized substring is re-raised at once, with
exactly one start call, no fallback and no warning. -/
theorem build_driver_headless_fallback (start : Nat → StartOutcome)
    (user_data_dir : Option (List Char)) (m : Option (List Char))
    (h0 : start 0 = StartOutcome.sessionNotCreated m) :
    (containsSub "DevToolsActivePort".data (m.getD []) = true →
      2 ≤ (build_driver start user_data_dir true).calls ∧
      (attemptsList true user_data_dir).get? 1 =
        some ⟨false, user_data_dir, some headlessFallbackWarning⟩) ∧
    (containsSub "DevToolsActivePort".data (m.getD []) = false →
      containsSub "crashed".data (m.getD []) = false →
      build_driver start user_data_dir true = ⟨BuildResult.fatal m, [], 1⟩) := by
  constructor
  · intro hport
    constructor
    · rw [build_driver, attemptsList_true]
      rw [runAttempts_cons_recover start _ _ 0 none [] m h0 (by simp [hport])]
      exact runAttempts_calls_cons start _ _ 1 (some m) _
    · rw [attemptsList_true]
      rfl
  · intro hport hcrash
    rw [build_driver, attemptsList_true]
    rw [runAttempts_cons_fatal start _ _ 0 none [] m h0 (by simp [hport, hcrash])]

/-- C1 witness: a port-conflict failure on the first headless attempt leads
to a second start call. -/
theorem build_driver_headless_fallback_witness :
    2 ≤ (build_driver (fun _ => StartOutcome.sessionNotCreated
          (some "DevToolsActivePort".data)) none true).calls :=
  ((build_driver_headless_fallback
      (fun _ => StartOutcome.sessionNotCreated (some "DevToolsActivePort".data))
      none (some "DevToolsActivePort".data) rfl).1 (by decide)).1

/-- C6: with a persistent profile configured, the attempt list ends with
exactly one further visible-mode attempt without the profile directory;
when every attempt fails recoverably, `build_driver` raises the last
observed error after printing the fallback warnings — shown for a headless
preference (three attempts) and a visible preference (two attempts). -/
theorem build_driver_profile_fallback_exhaust (start : Nat → StartOutcome)
    (d : List Char) (m0 m1 m2 : Option (List Char))
    (h0 : start 0 = StartOutcome.sessionNotCreated m0)
    (r0 : recoverableStartup (m0.getD []) = true)
    (h1 : start 1 = StartOutcome.sessionNotCreated m1)
    (r1 : recoverableStartup (m1.getD []) = true)
    (h2 : start 2 = StartOutcome.sessionNotCreated m2)
    (r2 : recoverableStartup (m2.getD []) = true) :
    attemptsList true (some d) =
      [⟨true, some d, none⟩, ⟨false, some d, some headlessFallbackWarning⟩,
       ⟨false, none, some profileFallbackWarning⟩] ∧
    build_driver start (some d) true =
      ⟨BuildResult.exhausted m2, [headlessFallbackWarning, profileFallbackWarning], 3⟩ ∧
    attemptsList false (some d) =
      [⟨false, some d, none⟩, ⟨false, none, some profileFallbackWarning⟩] ∧
    build_driver start (some d) false =
      ⟨BuildResult.exhausted m1, [profileFallbackWarning], 2⟩ := by
  have hc0 := not_and_not_eq_false_of_or _ _ (by rw [recoverableStartup] at r0; exact r0)
  have hc1 := not_and_not_eq_false_of_or _ _ (by rw [recoverableStartup] at r1; exact r1)
  have hc2 := not_and_not_eq_false_of_or _ _ (by rw [recoverableStartup] at r2; exact r2)
  refine ⟨rfl, ?_, rfl, ?_⟩
  · rw [build_driver]
    show runAttempts start
      [⟨true, some d, none⟩, ⟨false, some d, some headlessFallbackWarning⟩,
       ⟨false, none, some profileFallbackWarning⟩] 0 none [] = _
    rw [runAttempts_cons_recover start _ _ 0 none [] m0 h0 hc0]
    rw [runAttempts_cons_recover start _ _ 1 (some m0) _ m1 h1 hc1]
    rw [runAttempts_cons_recover start _ _ 2 (some m1) _ m2 h2 hc2]
    rw [runAttempts_nil_last]
    simp [warnOf]
  · rw [build_driver]
    show runAttempts start
      [⟨false, some d, none⟩, ⟨false, none, some profileFallbackWarning⟩] 0 none [] = _
    rw [runAttempts_cons_recover start _ _ 0 none [] m0 h0 hc0]
    rw [runAttempts_cons_recover start _ _ 1 (some m0) _ m1 h1 hc1]
    rw [runAttempts_nil_last]
    simp [warnOf]

/-- C6 witness: an always-crashing start exhausts all three attempts and
raises the last error. -/
theorem build_driver_profile_fallback_exhaust_witness :
    build_driver crashStart (some "p".data) true =
      ⟨BuildResult.exhausted (some "crashed".data),
       [headlessFallbackWarning, profileFallbackWarning], 3⟩ :=
  (build_driver_profile_fallback_exhaust crashStart "p".data
      (some "crashed".data) (some "crashed".data) (some "crashed".data)
      rfl (by decide) rfl (by decide) rfl (by decide)).2.1

/-- The selector scan of one iteration finds nothing exactly when no
selector's candidate click succeeds. -/
theorem scanSels_eq_none_iff (o : Nat → SelectorOutcome) (l : List Nat) :
    scanSels o l = none ↔ ∀ s ∈ l, o s ≠ SelectorOutcome.clickOk := by
  induction l with
  | nil => simp [scanSels]
  | cons a t ih =>
    cases h : o a <;> simp [scanSels, h, ih]

/-- A winning selector short-circuits the scan. -/
theorem scanSels_cons_ok (o : Nat → SelectorOutcome) (a : Nat) (rest : List Nat)
    (h : o a = SelectorOutcome.clickOk) : scanSels o (a :: rest) = some a := by
  simp [scanSels, h]

/-- A selector without a successful click advances the scan. -/
theorem scanSels_cons_skip (o : Nat → SelectorOutcome) (a : Nat) (rest : List Nat)
    (h : o a ≠ SelectorOutcome.clickOk) : scanSels o (a :: rest) = scanSels o rest := by
  cases ho : o a with
  | clickOk => exact absurd ho h
  | noMatches => simp [scanSels, ho]
  | clickFail => simp [scanSels, ho]

/-- A successful selector scan over the three source selectors: the winning
index is in range, its outcome is a successful click, and every earlier
selector strategy was tried and did not succeed. -/
theorem scanSels_three_some (o : Nat → SelectorOutcome) (s : Nat)
    (h : scanSels o selIdxList = some s) :
    s < 3 ∧ o s = SelectorOutcome.clickOk ∧
      ∀ t, t < s → o t ≠ SelectorOutcome.clickOk := by
  have hsel : selIdxList = [0, 1, 2] := by decide
  rw [hsel] at h
  by_cases k0 : o 0 = SelectorOutcome.clickOk
  · rw [scanSels_cons_ok o 0 _ k0] at h
    have hs : s = 0 := (Option.some.inj h).symm
    subst hs
    exact ⟨by omega, k0, fun t ht => absurd ht (Nat.not_lt_zero t)⟩
  · rw [scanSels_cons_skip o 0 _ k0] at h
    by_cases k1 : o 1 = SelectorOutcome.clickOk
    · rw [scanSels_cons_ok o 1 _ k1] at h
      have hs : s = 1 := (Option.some.inj h).symm
      subst hs
      refine ⟨by omega, k1, ?_⟩
      intro t ht
      interval_cases t
      exact k0
    · rw [scanSels_cons_skip o 1 _ k1] at h
      by_cases k2 : o 2 = SelectorOutcome.clickOk
      · rw [scanSels_cons_ok o 2 _ k2] at h
        have hs : s = 2 := (Option.some.inj h).symm
        subst hs
        refine ⟨by omega, k2, ?_⟩
        intro t ht
        interval_cases t
        · exact k0
        · exact k1
      · rw [scanSels_cons_skip o 2 _ k2] at h
        simp [scanSels] at h

/-- The polling loop either returns a hit inside its window with every
earlier iteration having scanned to no success, or runs out of fuel with
every iteration in the window having scanned to no success. -/
theorem navLoop_spec (env : Nat → Nat → SelectorOutcome) :
    ∀ (n i : Nat),
      (navLoop env i n = none ↔
        ∀ j, i ≤ j → j < i + n → scanSels (env j) selIdxList = none) ∧
      (∀ j s, navLoop env i n = some (j, s) →
        i ≤ j ∧ j < i + n ∧ scanSels (env j) selIdxList = some s ∧
          ∀ k, i ≤ k → k < j → scanSels (env k) selIdxList = none) := by
  intro n
  induction n with
  | zero =>
    intro i
    constructor
    · simp [navLoop]
      intro j h1 h2
      omega
    · intro j s h
      simp [navLoop] at h
  | succ n ih =>
    intro i
    cases h : scanSels (env i) selIdxList with
    | some s0 =>
      constructor
      · constructor
        · intro hn
          simp [navLoop, h] at hn
        · intro hall
          exact absurd h (by rw [hall i (le_refl i) (by omega)]; simp)
      · intro j s hj
        simp only [navLoop, h] at hj
        have hj' : i = j ∧ s0 = s := by
          constructor <;> [exact congrArg Prod.fst (Option.some.inj hj);
            exact congrArg Prod.snd (Option.some.inj hj)]
        obtain ⟨rfl, rfl⟩ := hj'
        exact ⟨le_refl i, by omega, h, fun k hk1 hk2 => absurd hk1 (by omega)⟩
    | none =>
      constructor
      · constructor
        · intro hn j hj1 hj2
          rcases Nat.eq_or_lt_of_le hj1 with rfl | hlt
          · exact h
          · simp only [navLoop, h] at hn
            exact ((ih (i + 1)).1.mp hn) j hlt (by omega)
        · intro hall
          simp only [navLoop, h]
          exact (ih (i + 1)).1.mpr (fun j hj1 hj2 => hall j (by omega) (by omega))
      · intro j s hj
        simp only [navLoop, h] at hj
        obtain ⟨hj1, hj2, hj3, hj4⟩ := (ih (i + 1)).2 j s hj
        refine ⟨by omega, by omega, hj3, ?_⟩
        intro k hk1 hk2
        rcases Nat.eq_or_lt_of_le hk1 with rfl | hlt
        · exact h
        · exact hj4 k hlt hk2

/-- C3: with the main content region rendered, `navigate_to_first_post`
raises its explicit no-content `RuntimeError` exactly when, in each of the
10 polling iterations, none of the 3 selector strategies yields a
successful click (so a single stale/timeout click failure never raises);
and a successful click happens within the 10-iteration bound, at the first
winning strategy of the first winning iteration, with all earlier
strategies and iterations having been tried without a successful click. -/
theorem navigate_first_post_bounded_retry (env : Nat → Nat → SelectorOutcome) :
    (navigate_to_first_post true env = NavResult.raised noContentMsg ↔
      ∀ i, i < 10 → ∀ s, s < 3 → env i s ≠ SelectorOutcome.clickOk) ∧
    (∀ i s, navigate_to_first_post true env = NavResult.clicked i s →
      i < 10 ∧ s < 3 ∧ env i s = SelectorOutcome.clickOk ∧
        (∀ t, t < s → env i t ≠ SelectorOutcome.clickOk) ∧
        (∀ j, j < i → ∀ t, t < 3 → env j t ≠ SelectorOutcome.clickOk)) := by
  have hsel : selIdxList = [0, 1, 2] := by decide
  have hiter : ∀ j, scanSels (env j) selIdxList = none ↔
      ∀ s, s < 3 → env j s ≠ SelectorOutcome.clickOk := by
    intro j
    rw [scanSels_eq_none_iff, hsel]
    constructor
    · intro hall s hs
      interval_cases s <;> exact hall _ (by simp)
    · intro hall s hs
      have : s < 3 := by
        simp at hs
        omega
      exact hall s this
  constructor
  · rw [show (navigate_to_first_post true env = NavResult.raised noContentMsg) ↔
        (navLoop env 0 10 = none) from ?_]
    · rw [(navLoop_spec env 10 0).1]
      constructor
      · intro hall i hi
        rw [← hiter i]
        exact hall i (by omega) (by omega)
      · intro hall j hj1 hj2
        rw [hiter j]
        exact hall j (by omega)
    · unfold navigate_to_first_post
      cases hnav : navLoop env 0 10 <;> simp [hnav]
  · intro i s hclick
    unfold navigate_to_first_post at hclick
    have hnav : navLoop env 0 10 = some (i, s) := by
      cases hnav' : navLoop env 0 10 with
      | none => rw [hnav'] at hclick; simp at hclick
      | some p =>
        rw [hnav'] at hclick
        simp at hclick
        obtain ⟨h1, h2⟩ := hclick
        rw [← h1, ← h2, Prod.mk.eta]
    obtain ⟨_, hlt, hscan, hearlier⟩ := (navLoop_spec env 10 0).2 i s hnav
    obtain ⟨hs3, hok, hprev⟩ := scanSels_three_some (env i) s hscan
    refine ⟨by omega, hs3, hok, hprev, ?_⟩
    intro j hj t ht
    exact (hiter j).mp (hearlier j (by omega) hj) t ht

/-- C3 witness: an oracle that never finds any post link exhausts the bound
and raises the explicit no-content error. -/
theorem navigate_first_post_bounded_retry_witness :
    navigate_to_first_post true allNoMatches = NavResult.raised noContentMsg :=
  (navigate_first_post_bounded_retry allNoMatches).1.mpr (by decide)

/-- A failing key status makes `get_required` raise the corresponding
`EnvConfigError` message. -/
theorem get_required_error_of_keyStatus (values : List (List Char × List Char))
    (key : List Char) (f : ConfigFailure) (h : keyStatus values key = some f) :
    get_required values key = Except.error (failureMsg f) := by
  unfold keyStatus at h
  cases hl : List.lookup key values with
  | none =>
    rw [hl] at h
    have h2 : some (ConfigFailure.missingKey key) = some f := h
    obtain rfl := Option.some.inj h2
    simp only [get_required, hl]
    rfl
  | some v =>
    rw [hl] at h
    have h' : (if v = [] then some (ConfigFailure.emptyValue key) else none) = some f := h
    by_cases hv : v = []
    · rw [if_pos hv] at h'
      obtain rfl := Option.some.inj h'
      simp only [get_required, hl]
      rw [if_pos hv]
      rfl
    · rw [if_neg hv] at h'
      exact absurd h' (by simp)

/-- A clean key status makes `get_required` return some value. -/
theorem get_required_ok_of_none (values : List (List Char × List Char))
    (key : List Char) (h : keyStatus values key = none) :
    ∃ v, get_required values key = Except.ok v := by
  unfold keyStatus at h
  cases hl : List.lookup key values with
  | none => rw [hl] at h; exact absurd h (by simp)
  | some v =>
    rw [hl] at h
    have h' : (if v = [] then some (ConfigFailure.emptyValue key) else none) = none := h
    by_cases hv : v = []
    · rw [if_pos hv] at h'; exact absurd h' (by simp)
    · refine ⟨v, ?_⟩
      simp only [get_required, hl]
      rw [if_neg hv]

/-- A bad required key anywhere in the list makes the first required
failure exist. -/
theorem firstRequiredFailure_ne_none (values : List (List Char × List Char))
    (k : List Char) (hk : k ∈ requiredKeys) (hbad : keyStatus values k ≠ none) :
    firstRequiredFailure values ≠ none := by
  intro hn
  unfold firstRequiredFailure at hn
  cases hA : keyStatus values ENV_USERNAME_KEY with
  | some f => rw [hA] at hn; exact absurd hn (by simp)
  | none =>
    rw [hA] at hn
    cases hB : keyStatus values ENV_PASSWORD_KEY with
    | some f => rw [hB] at hn; exact absurd hn (by simp)
    | none =>
      rw [hB] at hn
      cases hC : keyStatus values ENV_COMMENT_KEY with
      | some f => rw [hC] at hn; exact absurd hn (by simp)
      | none =>
        rw [hC] at hn
        have hD : keyStatus values ENV_PROFILE_KEY = none := hn
        have hall : keyStatus values k = none := by
          simp only [requiredKeys, List.mem_cons, List.not_mem_nil, or_false] at hk
          rcases hk with rfl | rfl | rfl | rfl <;> assumption
        exact hbad hall

/-- The configuration phase fails with exactly the first failing required
key's message. -/
theorem configPhase_error (expand : List Char → List Char)
    (values : List (List Char × List Char)) (f : ConfigFailure)
    (h : firstRequiredFailure values = some f) :
    configPhase expand values = Except.error (failureMsg f) := by
  unfold firstRequiredFailure at h
  cases hA : keyStatus values ENV_USERNAME_KEY with
  | some fA =>
    rw [hA] at h
    have h2 : some fA = some f := h
    obtain rfl := Option.some.inj h2
    simp only [configPhase, get_required_error_of_keyStatus values ENV_USERNAME_KEY fA hA]
  | none =>
    rw [hA] at h
    obtain ⟨vA, hvA⟩ := get_required_ok_of_none values ENV_USERNAME_KEY hA
    cases hB : keyStatus values ENV_PASSWORD_KEY with
    | some fB =>
      rw [hB] at h
      have h2 : some fB = some f := h
      obtain rfl := Option.some.inj h2
      simp only [configPhase, hvA,
        get_required_error_of_keyStatus values ENV_PASSWORD_KEY fB hB]
    | none =>
      rw [hB] at h
      obtain ⟨vB, hvB⟩ := get_required_ok_of_none values ENV_PASSWORD_KEY hB
      cases hC : keyStatus values ENV_COMMENT_KEY with
      | some fC =>
        rw [hC] at h
        have h2 : some fC = some f := h
        obtain rfl := Option.some.inj h2
        simp only [configPhase, hvA, hvB,
          get_required_error_of_keyStatus values ENV_COMMENT_KEY fC hC]
      | none =>
        rw [hC] at h
        have hD : keyStatus values ENV_PROFILE_KEY = some f := h
        obtain ⟨vC, hvC⟩ := get_required_ok_of_none values ENV_COMMENT_KEY hC
        simp only [configPhase, hvA, hvB, hvC,
          get_required_error_of_keyStatus values ENV_PROFILE_KEY f hD]

/-- A successful configuration phase derives its profile directory and
headless flag from the parsed values exactly as `main` does. -/
theorem configPhase_ok_fields (expand : List Char → List Char)
    (values : List (List Char × List Char)) (cfg : Config)
    (h : configPhase expand values = Except.ok cfg) :
    cfg.user_data_dir = profileFromValues expand values ∧
      cfg.headless = headlessFromValues values := by
  unfold configPhase at h
  cases hA : get_required values ENV_USERNAME_KEY with
  | error e => rw [hA] at h; exact absurd h (by simp)
  | ok vA =>
    rw [hA] at h
    cases hB : get_required values ENV_PASSWORD_KEY with
    | error e => rw [hB] at h; exact absurd h (by simp)
    | ok vB =>
      rw [hB] at h
      cases hC : get_required values ENV_COMMENT_KEY with
      | error e => rw [hC] at h; exact absurd h (by simp)
      | ok vC =>
        rw [hC] at h
        cases hD : get_required values ENV_PROFILE_KEY with
        | error e => rw [hD] at h; exact absurd h (by simp)
        | ok vD =>
          rw [hD] at h
          have h2 : (Except.ok
              { username := vA, password := vB, comment := vC, profile_url := vD,
                headless := headlessFromValues values,
                user_data_dir := profileFromValues expand values }
              : Except (List Char) Config) = Except.ok cfg := h
          obtain rfl := Except.ok.inj h2
          exact ⟨rfl, rfl⟩

/-- C2: for every configuration file missing a required key (or holding an
empty required value), `main` exits with code 1, emits a single
`Error: ...` line on stderr, and never invokes `build_driver` (no browser
session); when the first failing check is a missing key, the stderr line is
exactly `Error: Missing required environment variable: <KEY>`. -/
theorem main_missing_required_key (expand : List Char → List Char) (envPath : List Char)
    (lines : List (List Char)) (w : World)
    (h : ∃ k ∈ requiredKeys, List.lookup k (load_env lines) = none ∨
        List.lookup k (load_env lines) = some []) :
    (mainModel expand envPath (some lines) w).outcome = MainOutcome.exit 1 ∧
    (mainModel expand envPath (some lines) w).buildInvoked = false ∧
    (mainModel expand envPath (some lines) w).driverCreated = false ∧
    (∃ e, (mainModel expand envPath (some lines) w).stderr = ["Error: ".data ++ e]) ∧
    (∀ k, firstRequiredFailure (load_env lines) = some (ConfigFailure.missingKey k) →
      (mainModel expand envPath (some lines) w).stderr
        = ["Error: ".data ++ ("Missing required environment variable: ".data ++ k)]) := by
  obtain ⟨k, hk, hbad⟩ := h
  have hbad' : keyStatus (load_env lines) k ≠ none := by
    unfold keyStatus
    rcases hbad with hb | hb <;> rw [hb] <;> simp
  have hne := firstRequiredFailure_ne_none (load_env lines) k hk hbad'
  obtain ⟨f, hf⟩ := Option.ne_none_iff_exists'.mp hne
  have herr := configPhase_error expand (load_env lines) f hf
  have hmain : mainModel expand envPath (some lines) w =
      ⟨MainOutcome.exit 1, ["Error: ".data ++ failureMsg f], [],
       false, false, false, false⟩ := by
    simp only [mainModel, herr]
  rw [hmain]
  refine ⟨rfl, rfl, rfl, ⟨failureMsg f, rfl⟩, ?_⟩
  intro k' hk'
  rw [hf] at hk'
  obtain rfl := Option.some.inj hk'
  rfl

/-- C2 witness: a file missing `INSTAGRAM_COMMENT` makes `main` exit 1. -/
theorem main_missing_required_key_witness :
    (mainModel id ".env".data (some linesNoComment) wOk).outcome = MainOutcome.exit 1 :=
  (main_missing_required_key id ".env".data linesNoComment wOk
    ⟨ENV_COMMENT_KEY, by decide, Or.inl (by decide)⟩).1

/-- C4 counterexample: with a fully valid configuration and a bootstrap
that fails fatally (message `boom`, matching neither recognized symptom),
the `SessionNotCreatedException` escapes `main` uncaught — the run's
outcome is not exit code 3 and nothing at all is reported on stderr,
because the `build_driver` call sits outside both `try` blocks of `main`. -/
theorem main_uncaught_bootstrap_cex :
    (mainModel id ".env".data (some exLines) wBoom).outcome
        = MainOutcome.uncaught (BuildResult.fatal (some "boom".data)) ∧
    (mainModel id ".env".data (some exLines) wBoom).outcome ≠ MainOutcome.exit 3 ∧
    (mainModel id ".env".data (some exLines) wBoom).stderr = [] := by
  refine ⟨rfl, by decide, rfl⟩

/-- C4 (amended): an exception raised during the post-bootstrap automation
stages that is not a `TimeoutException` is caught at the top level of
`main`, reported as `Unexpected error: ...` on stderr, and yields exit code
3 with the session still released; a fatal session-startup failure from
`build_driver`, by contrast, is not caught: it escapes `main`. -/
theorem main_unexpected_error_exit3 (expand : List Char → List Char)
    (envPath : List Char) (lines : List (List Char)) (w : World) (cfg : Config)
    (hc : configPhase expand (load_env lines) = Except.ok cfg) :
    (∀ i m, (build_driver w.start cfg.user_data_dir cfg.headless).result
          = BuildResult.success i →
      firstStageExc w = some (StageExc.other m) →
      (mainModel expand envPath (some lines) w).outcome = MainOutcome.exit 3 ∧
      ("Unexpected error: ".data ++ m) ∈ (mainModel expand envPath (some lines) w).stderr ∧
      (mainModel expand envPath (some lines) w).driverQuit = true) ∧
    (∀ m, (build_driver w.start cfg.user_data_dir cfg.headless).result
          = BuildResult.fatal m →
      (mainModel expand envPath (some lines) w).outcome
        = MainOutcome.uncaught (BuildResult.fatal m)) := by
  constructor
  · intro i m hb hs
    have hmain : mainModel expand envPath (some lines) w =
        stageRun w (build_driver w.start cfg.user_data_dir cfg.headless).stderrMsgs
          cfg.user_data_dir.isSome := by
      simp only [mainModel, hc, hb]
    rw [hmain]
    unfold stageRun
    rw [hs]
    exact ⟨rfl, by simp, rfl⟩
  · intro m hb
    simp only [mainModel, hc, hb]

/-- C4 amended witness: a non-timeout login failure yields exit code 3. -/
theorem main_unexpected_error_exit3_witness :
    (mainModel id ".env".data (some exLines) wOther).outcome = MainOutcome.exit 3 :=
  ((main_unexpected_error_exit3 id ".env".data exLines wOther cfgEx rfl).1 0 "E".data
    (by decide) rfl).1

/-- C5: after a successful bootstrap, a `TimeoutException` escaping the
automation stages makes `main` exit with code 2 and an
`Automation timed out: ...` line on stderr; and `driver.quit()` runs on
every exit path taken after the bootstrap, whatever the stage outcomes. -/
theorem main_timeout_exit2 (expand : List Char → List Char) (envPath : List Char)
    (lines : List (List Char)) (w : World) (cfg : Config) (i : Nat)
    (hc : configPhase expand (load_env lines) = Except.ok cfg)
    (hb : (build_driver w.start cfg.user_data_dir cfg.headless).result
        = BuildResult.success i) :
    (∀ m, firstStageExc w = some (StageExc.timeout m) →
      (mainModel expand envPath (some lines) w).outcome = MainOutcome.exit 2 ∧
      ("Automation timed out: ".data ++ m)
        ∈ (mainModel expand envPath (some lines) w).stderr) ∧
    (mainModel expand envPath (some lines) w).driverQuit = true := by
  have hmain : mainModel expand envPath (some lines) w =
      stageRun w (build_driver w.start cfg.user_data_dir cfg.headless).stderrMsgs
        cfg.user_data_dir.isSome := by
    simp only [mainModel, hc, hb]
  rw [hmain]
  constructor
  · intro m hs
    unfold stageRun
    rw [hs]
    exact ⟨rfl, by simp⟩
  · unfold stageRun
    cases hs : firstStageExc w with
    | none => rfl
    | some e => cases e <;> rfl

/-- C5 witness: a timed-out login landmark wait yields exit code 2. -/
theorem main_timeout_exit2_witness :
    (mainModel id ".env".data (some exLines) wTimeout).outcome = MainOutcome.exit 2 :=
  ((main_timeout_exit2 id ".env".data exLines wTimeout cfgEx 0 rfl (by decide)).1
    "t".data rfl).1

/-- The profile choice on a truthy (non-empty, stripped) value: `None` on a
sentinel, otherwise the expanded value itself. -/
theorem chooseProfileDir_some_eq (expand : List Char → List Char) (s : List Char)
    (hs : s ≠ []) :
    chooseProfileDir expand (some s)
      = if lowerL (trimL s) ∈ sentinelValues then none else some (expand s) := by
  have hie : s.isEmpty = false := by
    cases s with
    | nil => exact absurd rfl hs
    | cons a t => rfl
  by_cases hm : lowerL (trimL s) ∈ sentinelValues
  · simp [chooseProfileDir, disableSentinel, hie, hm]
  · simp [chooseProfileDir, disableSentinel, pyOrDefault, hie, hm, hs]

/-- Case analysis of the profile directory `main` derives: missing or
blank values give the expanded default `.selenium-profile`; a sentinel
value gives no profile; any other value gives itself, stripped and
expanded. -/
theorem profileFromValues_cases (expand : List Char → List Char)
    (values : List (List Char × List Char)) :
    profileFromValues expand values =
      match List.lookup ENV_CHROME_PROFILE_DIR values with
      | none => some (expand ".selenium-profile".data)
      | some v =>
        if trimL v = [] then some (expand ".selenium-profile".data)
        else if lowerL (trimL v) ∈ sentinelValues then none
        else some (expand (trimL v)) := by
  unfold profileFromValues get_optional
  cases hl : List.lookup ENV_CHROME_PROFILE_DIR values with
  | none => rfl
  | some v =>
    by_cases ht : trimL v = []
    · simp only [ht]
      rfl
    · simp only [if_neg ht]
      rw [chooseProfileDir_some_eq expand (trimL v) ht, trimL_idem]

/-- C9: a missing `CHROME_USER_DATA_DIR` key, and an empty or
whitespace-only value, both leave the persistent profile enabled with the
default `.selenium-profile` directory (passed through `expanduser`); the
profile is disabled exactly when the value's stripped lowercase form is one
of the sentinels `none`/`disable`/`disabled`; and on any run whose
configuration phase succeeds, `main` uses exactly this directory and calls
`mkdir` on it precisely when a directory was chosen. -/
theorem profile_dir_default_and_sentinels (expand : List Char → List Char)
    (values : List (List Char × List Char)) :
    (List.lookup ENV_CHROME_PROFILE_DIR values = none →
      profileFromValues expand values = some (expand ".selenium-profile".data)) ∧
    (∀ v, List.lookup ENV_CHROME_PROFILE_DIR values = some v → trimL v = [] →
      profileFromValues expand values = some (expand ".selenium-profile".data)) ∧
    (profileFromValues expand values = none ↔
      ∃ v, List.lookup ENV_CHROME_PROFILE_DIR values = some v ∧
        lowerL (trimL v) ∈ sentinelValues) ∧
    (∀ (envPath : List Char) (lines : List (List Char)) (w : World) (cfg : Config),
      configPhase expand (load_env lines) = Except.ok cfg →
      cfg.user_data_dir = profileFromValues expand (load_env lines) ∧
      (mainModel expand envPath (some lines) w).mkdirCalled
        = (profileFromValues expand (load_env lines)).isSome) := by
  refine ⟨?_, ?_, ?_, ?_⟩
  · intro hl
    rw [profileFromValues_cases, hl]
  · intro v hl ht
    rw [profileFromValues_cases, hl]
    simp [ht]
  · rw [profileFromValues_cases]
    cases hl : List.lookup ENV_CHROME_PROFILE_DIR values with
    | none => simp
    | some v =>
      by_cases ht : trimL v = []
      · have hnil : lowerL [] ∉ sentinelValues := by decide
        simp [ht, hnil]
      · by_cases hm : lowerL (trimL v) ∈ sentinelValues
        · simp [ht, hm]
        · simp [ht, hm]
  · intro envPath lines w cfg hc
    obtain ⟨hud, _⟩ := configPhase_ok_fields expand (load_env lines) cfg hc
    refine ⟨hud, ?_⟩
    have hm : (mainModel expand envPath (some lines) w).mkdirCalled
        = cfg.user_data_dir.isSome := by
      simp only [mainModel, hc]
      cases hb : (build_driver w.start cfg.user_data_dir cfg.headless).result with
      | success i =>
        unfold stageRun
        cases hs : firstStageExc w with
        | none => rfl
        | some e => cases e <;> rfl
      | fatal m => rfl
      | exhausted m => rfl
      | unknownFailure => rfl
    rw [hm, hud]

/-- C9 witness: with no `CHROME_USER_DATA_DIR` entry at all, the default
profile directory is chosen. -/
theorem profile_dir_default_and_sentinels_witness :
    profileFromValues id [] = some ".selenium-profile".data :=
  (profile_dir_default_and_sentinels id []).1 rfl

end Perfmon
